/-
Verification of the Language Module Registry and Debug Configuration
Generation Engine of the vscode-tingly-debug extension.

The TypeScript source is shallowly embedded below.  JavaScript strings are
modelled as Lean `String` (lists of characters); the JavaScript string
operations used by the source (`startsWith`, `endsWith`, first-occurrence
`replace`, `substring` with its negative-index clamping, `lastIndexOf`,
`split(...).pop()`) are reproduced faithfully, including their edge-case
behaviour.  The `vscode.workspace.findFiles` existence probe is an external
collaborator and is modelled as an oracle `Probe` that, for each glob
pattern, either finds a file, finds none, or throws.
-/
import Mathlib

namespace TinglyDebug

/-! ## JavaScript string primitives -/

/-- `s.startsWith(pre)` in JavaScript. -/
def jsStartsWith (s pre : String) : Bool :=
  pre.data.isPrefixOf s.data

/-- `s.endsWith(suf)` in JavaScript. -/
def jsEndsWith (s suf : String) : Bool :=
  suf.data.isSuffixOf s.data

/-- Substring search over character lists: does `pat` occur in the list? -/
def isInfixOfList (pat : List Char) : List Char → Bool
  | [] => pat.isEmpty
  | c :: rest => pat.isPrefixOf (c :: rest) || isInfixOfList pat rest

/-- JavaScript `s.includes(t)`: substring containment. -/
def jsIncludes (s t : String) : Bool :=
  isInfixOfList t.data s.data

/-- Core of JavaScript `s.replace(pat, rep)` with a string pattern:
only the FIRST occurrence of `pat` is replaced; if `pat` does not occur,
the string is returned unchanged; an empty `pat` matches at position 0. -/
def replaceFirstList (pat rep : List Char) : List Char → List Char
  | [] => if pat.isEmpty then rep else []
  | c :: rest =>
    if pat.isPrefixOf (c :: rest) then rep ++ (c :: rest).drop pat.length
    else c :: replaceFirstList pat rep rest

/-- JavaScript `s.replace(pat, rep)` for a plain-string `pat`. -/
def jsReplaceFirst (s pat rep : String) : String :=
  ⟨replaceFirstList pat.data rep.data s.data⟩

/-- JavaScript `s.replace(/^\//, '')`: strip one leading forward slash. -/
def stripLeadingSlash (s : String) : String :=
  match s.data with
  | c :: rest => if c = '/' then ⟨rest⟩ else s
  | [] => s

/-- A path-separator character, `/` or `\`. -/
def isSep (c : Char) : Bool := c == '/' || c == '\\'

/-- JavaScript `s.replace(/^[\/\\]/, '')`: strip one leading separator. -/
def stripLeadingSep (s : String) : String :=
  match s.data with
  | c :: rest => if isSep c then ⟨rest⟩ else s
  | [] => s

/-- Index of the last occurrence of `c`, as JavaScript `s.lastIndexOf(c)`
(with `none` for the JavaScript result `-1`). -/
def lastIndexOfChar (c : Char) : List Char → Option Nat
  | [] => none
  | x :: xs =>
    match lastIndexOfChar c xs with
    | some i => some (i + 1)
    | none => if x = c then some 0 else none

/-- JavaScript `s.substring(0, s.lastIndexOf(c))`.  When `c` does not occur,
`lastIndexOf` is `-1` and `substring` clamps the negative end index to `0`,
so the result is the empty string. -/
def substringToLast (c : Char) (s : String) : String :=
  match lastIndexOfChar c s.data with
  | some i => ⟨s.data.take i⟩
  | none => ""

/-- JavaScript `s.split(/[\/\\]/).pop() || ''`: the basename of a path,
i.e. the maximal separator-free suffix. -/
def jsBasename (s : String) : String :=
  ⟨(s.data.reverse.takeWhile (fun c => !isSep c)).reverse⟩

/-! ## Data model (`src/web/modules/types.ts`) -/

/-- `SymbolInfo` from `debugCommandGenerator.ts`: the located code construct
the caller wants to debug. -/
structure SymbolInfo where
  name : String
  path : List String
  kind : String
  language : String
  filePath : String
  workspaceRoot : String
  deriving Repr, DecidableEq

/-- `LanguageDebugConfig`: `type`/`name`/`request` are required; the open
`[key: string]: any` extension map is modelled by optional fields covering
every key the bundled generators produce.  Environment maps are association
lists. -/
structure LanguageDebugConfig where
  type : String
  name : String
  request : String
  mode : Option String := none
  program : Option String := none
  module : Option String := none
  args : Option (List String) := none
  cwd : Option String := none
  env : Option (List (String × String)) := none
  console : Option String := none
  justMyCode : Option Bool := none
  runtimeArgs : Option (List String) := none
  windowsProgram : Option String := none
  deriving Repr, DecidableEq

/-- `LanguageTestConfig` from `types.ts`. -/
structure LanguageTestConfig where
  framework : String
  testCommand : String
  args : List String
  env : Option (List (String × String)) := none
  cwd : Option String := none
  deriving Repr, DecidableEq

/-- `LanguageFramework` from `types.ts`: a named convention with glob
detectors, an integer priority, a debug-config factory and an optional
test-config factory.  (Setup metadata is not part of core behaviour.) -/
structure LanguageFramework where
  name : String
  filePatterns : List String
  priority : Int
  debugConfig : SymbolInfo → LanguageDebugConfig
  testConfig : Option (SymbolInfo → LanguageTestConfig) := none

/-- `LanguageModule` from `types.ts`. -/
structure LanguageModule where
  language : String
  displayName : String
  fileExtensions : List String
  defaultDebugType : String
  frameworks : List LanguageFramework
  defaultConfig : String → String → LanguageDebugConfig

/-! ## Workspace file probe (the `vscode.workspace.findFiles` collaborator) -/

/-- Outcome of probing one glob pattern with
`vscode.workspace.findFiles(pattern, null, 1)`: a file was found, none was
found, or the probe threw. -/
inductive ProbeResult where
  | found
  | notFound
  | error
  deriving Repr, DecidableEq

/-- The external workspace as an oracle from glob patterns to outcomes. -/
abbrev Probe := String → ProbeResult

/-! ## Registry (`src/web/modules/index.ts`, `LanguageModuleRegistry`) -/

/-- The registry's `modules` map, as its list of values in insertion order
(keys are the modules' language strings, unique by `Map` semantics). -/
abbrev Modules := List LanguageModule

/-- `getModule(language)`: exact key lookup. -/
def getModule (modules : Modules) (language : String) : Option LanguageModule :=
  modules.find? (fun m => m.language == language)

/-- One step of the in-place insertion used to model
`frameworks.sort((a, b) => b.priority - a.priority)`. -/
def insertByPriority (fw : LanguageFramework) :
    List LanguageFramework → List LanguageFramework
  | [] => [fw]
  | g :: rest =>
    if g.priority > fw.priority then g :: insertByPriority fw rest
    else fw :: g :: rest

/-- `frameworks.sort((a, b) => b.priority - a.priority)`: a STABLE sort
(guaranteed by ECMAScript 2019) in descending priority order; ties keep
their original relative order. -/
def sortByPriorityDesc : List LanguageFramework → List LanguageFramework
  | [] => []
  | fw :: rest => insertByPriority fw (sortByPriorityDesc rest)

/-- `matchesFramework`'s inner loop over `framework.filePatterns`: each
pattern is probed with `findFiles(pattern, null, 1)` inside a
`try { ... } catch (error) { /- ignore and continue -/ }`; the first
pattern that finds a file returns `true`; a throwing probe falls through to
the next pattern exactly like a pattern that found nothing. -/
def matchesPatterns (probe : Probe) : List String → Bool
  | [] => false
  | p :: rest =>
    match probe p with
    | .found => true
    | .notFound => matchesPatterns probe rest
    | .error => matchesPatterns probe rest

/-- `LanguageModuleRegistry.matchesFramework(symbol, framework)` (the
symbol itself is not consulted). -/
def matchesFramework (probe : Probe) (framework : LanguageFramework) : Bool :=
  matchesPatterns probe framework.filePatterns

/-- The scan of `detectFramework` over the sorted frameworks: first
matching framework wins. -/
def findMatchingFramework (probe : Probe) :
    List LanguageFramework → Option LanguageFramework
  | [] => none
  | fw :: rest =>
    if matchesFramework probe fw then some fw
    else findMatchingFramework probe rest

/-- `detectFramework(symbol)`: resolve the module, sort its frameworks by
priority descending, return the first whose patterns match the workspace;
`null` if the language has no module or nothing matches. -/
def detectFramework (modules : Modules) (probe : Probe) (symbol : SymbolInfo) :
    Option LanguageFramework :=
  match getModule modules symbol.language with
  | none => none
  | some m => findMatchingFramework probe (sortByPriorityDesc m.frameworks)

/-- The STATE EFFECT of `detectFramework` (and of `getFrameworkInfo`) on the
registered module: `module.frameworks.sort(...)` sorts the module's own
array IN PLACE (JavaScript `Array.prototype.sort` mutates), so after the
call the registered module holds the sorted array. -/
def detectFrameworkEffect (m : LanguageModule) : LanguageModule :=
  { m with frameworks := sortByPriorityDesc m.frameworks }

/-- `getFrameworkInfo(language)`: name/priority projection of the sorted
frameworks; `[]` when the language has no module. -/
def getFrameworkInfo (modules : Modules) (language : String) :
    List (String × Int) :=
  match getModule modules language with
  | none => []
  | some m => (sortByPriorityDesc m.frameworks).map (fun fw => (fw.name, fw.priority))

/-- `generateDebugConfig(symbol)`: throws
`` `No module registered for language: ${symbol.language}` `` when the
language has no module; otherwise the detected framework's factory, or the
module's default factory when detection found nothing. -/
def generateDebugConfig (modules : Modules) (probe : Probe)
    (symbol : SymbolInfo) : Except String LanguageDebugConfig :=
  match getModule modules symbol.language with
  | none => .error ("No module registered for language: " ++ symbol.language)
  | some m =>
    match detectFramework modules probe symbol with
    | some framework => .ok (framework.debugConfig symbol)
    | none => .ok (m.defaultConfig symbol.filePath symbol.workspaceRoot)

/-- `generateTestConfig(symbol)`: its body never throws — it goes straight
to `detectFramework` (which yields `null` both for an unregistered language
and for no match) and returns `null` unless the detected framework has a
`testConfig` factory. -/
def generateTestConfig (modules : Modules) (probe : Probe)
    (symbol : SymbolInfo) : Except String (Option LanguageTestConfig) :=
  match detectFramework modules probe symbol with
  | some framework =>
    match framework.testConfig with
    | some tc => .ok (some (tc symbol))
    | none => .ok none
  | none => .ok none

/-! ## Go module (`src/web/modules/golang.ts`) -/

/-- `isGoTestFunction(symbol)`: test file (name ends in `_test.go`) AND
test-style symbol name (`Test`/`Benchmark`/`Example` prefix). -/
def isGoTestFunction (symbol : SymbolInfo) : Bool :=
  let isTestFile := jsEndsWith symbol.filePath "_test.go"
  let isTestSymbol := jsStartsWith symbol.name "Test" ||
                      jsStartsWith symbol.name "Benchmark" ||
                      jsStartsWith symbol.name "Example"
  isTestFile && isTestSymbol

/-- `isGoMainFunction(symbol)`. -/
def isGoMainFunction (symbol : SymbolInfo) : Bool :=
  symbol.name == "main" && symbol.path.contains "main"

/-- `getFileDirectoryPath(filePath, workspaceRoot)` from `golang.ts`.
Note `const dirPath = filePath.substring(0, filePath.lastIndexOf('/'))`:
when the path has no `/`, `lastIndexOf` is `-1` and `substring` clamps it
to `0`, so `dirPath` is `""` — the subsequent `dirPath === filePath` guard
(commented in the source as the no-separator case) then only fires for the
empty path.  The emptiness test on `workspaceRoot` models JavaScript
truthiness of `workspaceRoot &&`. -/
def getFileDirectoryPath (filePath workspaceRoot : String) : String :=
  let dirPath := substringToLast '/' filePath
  if dirPath == filePath then "${workspaceFolder}"
  else if workspaceRoot != "" && jsStartsWith filePath workspaceRoot then
    let relativePath :=
      stripLeadingSlash ⟨filePath.data.drop workspaceRoot.data.length⟩
    let relativeDirPath := substringToLast '/' relativePath
    if relativeDirPath != "" then "${workspaceFolder}/" ++ relativeDirPath
    else "${workspaceFolder}"
  else dirPath

/-- `generateGoDebugConfig(symbol)`: classify as test / main / plain. -/
def generateGoDebugConfig (symbol : SymbolInfo) : LanguageDebugConfig :=
  let fileDirPath := getFileDirectoryPath symbol.filePath symbol.workspaceRoot
  if isGoTestFunction symbol then
    { name := "Go Test: " ++ symbol.name
      type := "go"
      request := "launch"
      mode := some "test"
      program := some fileDirPath
      args := some ["-test.run", "^" ++ symbol.name ++ "$", "-test.v"]
      env := some [("GOPATH", "${workspaceFolder}"), ("GO111MODULE", "on")] }
  else if isGoMainFunction symbol then
    { name := "Go Debug: " ++ symbol.name ++ " (" ++ fileDirPath ++ ")"
      type := "go"
      request := "launch"
      mode := some "debug"
      program := some fileDirPath
      env := some [("GOPATH", "${workspaceFolder}"), ("GO111MODULE", "on")] }
  else
    { name := "Go Debug: " ++ symbol.name ++ " (" ++ fileDirPath ++ ")"
      type := "go"
      request := "launch"
      mode := some "auto"
      program := some fileDirPath
      env := some [("GOPATH", "${workspaceFolder}"), ("GO111MODULE", "on")] }

/-- The `go-test` framework's `testConfig` factory. -/
def goTestTestConfig (symbol : SymbolInfo) : LanguageTestConfig :=
  let fileDirPath := getFileDirectoryPath symbol.filePath symbol.workspaceRoot
  { framework := "go-test"
    testCommand := "go test"
    args :=
      if isGoTestFunction symbol then
        ["-run", "^" ++ symbol.name ++ "$", "-v", fileDirPath]
      else ["-v", fileDirPath]
    cwd := some fileDirPath
    env := some [("GOPATH", "${workspaceFolder}"), ("GO111MODULE", "on")] }

/-- `golangModule.defaultConfig(filePath, workspaceRoot)`: smart default by
file name (`split(/[\/\\]/).pop() || ''`). -/
def golangDefaultConfig (filePath workspaceRoot : String) : LanguageDebugConfig :=
  let fileName := jsBasename filePath
  let fileDirPath := getFileDirectoryPath filePath workspaceRoot
  if fileName == "main.go" then
    { name := "Launch file"
      type := "go"
      request := "launch"
      mode := some "debug"
      program := some "${file}"
      env := some [("GOPATH", "${workspaceFolder}"), ("GO111MODULE", "on")] }
  else if jsEndsWith fileName "_test.go" then
    { name := "Go: Launch Tests"
      type := "go"
      request := "launch"
      mode := some "test"
      program := some fileDirPath
      args := some ["-test.v"]
      env := some [("GOPATH", "${workspaceFolder}"), ("GO111MODULE", "on")] }
  else
    { name := "Go: Launch Package (" ++ fileDirPath ++ ")"
      type := "go"
      request := "launch"
      mode := some "auto"
      program := some fileDirPath
      env := some [("GOPATH", "${workspaceFolder}"), ("GO111MODULE", "on")] }

/-- The `go-test` framework (priority 10, WITH a test factory). -/
def goTestFramework : LanguageFramework :=
  { name := "go-test"
    filePatterns := ["**/*_test.go", "go.mod", "go.sum"]
    priority := 10
    debugConfig := generateGoDebugConfig
    testConfig := some goTestTestConfig }

/-- The `go-main` framework (priority 8, NO test factory). -/
def goMainFramework : LanguageFramework :=
  { name := "go-main"
    filePatterns := ["**/main.go", "go.mod"]
    priority := 8
    debugConfig := generateGoDebugConfig
    testConfig := none }

/-- `golangModule`. -/
def golangModule : LanguageModule :=
  { language := "go"
    displayName := "Go"
    fileExtensions := ["go"]
    defaultDebugType := "go"
    frameworks := [goTestFramework, goMainFramework]
    defaultConfig := golangDefaultConfig }

/-! ## Python module (`src/web/modules/python.ts`)

The pytest/unittest factories call `vscode.workspace.asRelativePath`, an
external collaborator; it is passed in as a parameter `asRel`. -/

/-- The `pytest` framework's `debugConfig` factory. -/
def pytestDebugConfig (asRel : String → String) (symbol : SymbolInfo) :
    LanguageDebugConfig :=
  { name := "pytest: " ++ symbol.name
    type := "python"
    request := "launch"
    module := some "pytest"
    args := some ["-s", "-v",
      asRel symbol.filePath ++ "::" ++ String.intercalate "::" symbol.path]
    cwd := some "${workspaceFolder}"
    env := some [("PYTHONPATH", "${workspaceFolder}")]
    console := some "integratedTerminal"
    justMyCode := some false }

/-- The `pytest` framework's `testConfig` factory. -/
def pytestTestConfig (asRel : String → String) (symbol : SymbolInfo) :
    LanguageTestConfig :=
  { framework := "pytest"
    testCommand := "pytest"
    args := ["-s", "-v",
      asRel symbol.filePath ++ "::" ++ String.intercalate "::" symbol.path]
    env := some [("PYTHONPATH", "${workspaceFolder}")]
    cwd := some "${workspaceFolder}" }

/-- The `unittest` framework's `debugConfig` factory
(`asRelativePath(filePath).replace('.py', '')` replaces only the first
occurrence of `.py`). -/
def unittestDebugConfig (asRel : String → String) (symbol : SymbolInfo) :
    LanguageDebugConfig :=
  { name := "unittest: " ++ symbol.name
    type := "python"
    request := "launch"
    module := some "unittest"
    args := some [jsReplaceFirst (asRel symbol.filePath) ".py" "" ++ "." ++
      String.intercalate "." (symbol.path.drop 1)]
    cwd := some "${workspaceFolder}"
    console := some "integratedTerminal"
    justMyCode := some true }

/-- `pythonModule.defaultConfig`: `filePath.replace(workspaceRoot, '')`
(first occurrence only) then `.replace(/^[\/\\]/, '')`. -/
def pythonDefaultConfig (filePath workspaceRoot : String) : LanguageDebugConfig :=
  let relativePath := stripLeadingSep (jsReplaceFirst filePath workspaceRoot "")
  { name := "Python: Current File"
    type := "python"
    request := "launch"
    program := some ("${workspaceFolder}/" ++ relativePath)
    console := some "integratedTerminal"
    justMyCode := some true
    cwd := some "${workspaceFolder}" }

/-- `pythonModule`. -/
def pythonModule (asRel : String → String) : LanguageModule :=
  { language := "python"
    displayName := "Python"
    fileExtensions := ["py", "pyw", "py3"]
    defaultDebugType := "python"
    frameworks :=
      [ { name := "pytest"
          filePatterns := ["**/test_*.py", "**/*_test.py", "**/tests/**",
            "**/conftest.py", "pytest.ini", "pyproject.toml", "setup.cfg"]
          priority := 10
          debugConfig := pytestDebugConfig asRel
          testConfig := some (pytestTestConfig asRel) }
      , { name := "unittest"
          filePatterns := ["**/test_*.py", "**/*_test.py", "**/tests/**"]
          priority := 5
          debugConfig := unittestDebugConfig asRel
          testConfig := none } ]
    defaultConfig := pythonDefaultConfig }

/-! ## JavaScript/TypeScript module (`src/web/modules/javascript.ts`) -/

/-- The `jest` framework's `debugConfig` factory. -/
def jestDebugConfig (symbol : SymbolInfo) : LanguageDebugConfig :=
  let isTypeScript := jsEndsWith symbol.filePath ".ts" ||
                      jsEndsWith symbol.filePath ".tsx"
  { name := "Jest: " ++ symbol.name
    type := "node"
    request := "launch"
    program := some "${workspaceFolder}/node_modules/.bin/jest"
    args := some ["--runInBand", "--testNamePattern", symbol.name]
    cwd := some "${workspaceFolder}"
    console := some "integratedTerminal"
    env := if isTypeScript then
        some [("TS_NODE_PROJECT", "${workspaceFolder}/tsconfig.json")]
      else none
    runtimeArgs := if isTypeScript then some ["-r", "ts-node/register"] else none
    windowsProgram := some "${workspaceFolder}/node_modules/jest/bin/jest" }

/-- The `jest` framework's `testConfig` factory. -/
def jestTestConfig (symbol : SymbolInfo) : LanguageTestConfig :=
  { framework := "jest"
    testCommand := "jest"
    args := ["--runInBand", "--testNamePattern", symbol.name]
    cwd := some "${workspaceFolder}" }

/-- The `mocha` framework's `debugConfig` factory. -/
def mochaDebugConfig (symbol : SymbolInfo) : LanguageDebugConfig :=
  { name := "Mocha: " ++ symbol.name
    type := "node"
    request := "launch"
    program := some "${workspaceFolder}/node_modules/.bin/mocha"
    args := some ["--grep", symbol.name]
    cwd := some "${workspaceFolder}"
    console := some "integratedTerminal"
    runtimeArgs := if jsEndsWith symbol.filePath ".ts" then
        some ["-r", "ts-node/register"]
      else none
    env := if jsEndsWith symbol.filePath ".ts" then
        some [("TS_NODE_PROJECT", "${workspaceFolder}/tsconfig.json")]
      else none }

/-- The `mocha` framework's `testConfig` factory. -/
def mochaTestConfig (symbol : SymbolInfo) : LanguageTestConfig :=
  { framework := "mocha"
    testCommand := "mocha"
    args := ["--grep", symbol.name]
    cwd := some "${workspaceFolder}" }

/-- `javascriptModule.defaultConfig`: same first-occurrence
`replace(workspaceRoot, '')` shape as the Python default factory. -/
def javascriptDefaultConfig (filePath workspaceRoot : String) :
    LanguageDebugConfig :=
  let relativePath := stripLeadingSep (jsReplaceFirst filePath workspaceRoot "")
  let isTypeScript := jsEndsWith filePath ".ts" || jsEndsWith filePath ".tsx"
  { name := if isTypeScript then "Node.js: TypeScript File"
      else "Node.js: JavaScript File"
    type := "node"
    request := "launch"
    program := some ("${workspaceFolder}/" ++ relativePath)
    cwd := some "${workspaceFolder}"
    console := some "integratedTerminal"
    runtimeArgs := if isTypeScript then some ["-r", "ts-node/register"] else none
    env := if isTypeScript then
        some [("TS_NODE_PROJECT", "${workspaceFolder}/tsconfig.json")]
      else none }

/-- `javascriptModule`. -/
def javascriptModule : LanguageModule :=
  { language := "javascript"
    displayName := "JavaScript/TypeScript"
    fileExtensions := ["js", "mjs", "cjs", "ts", "tsx", "jsx"]
    defaultDebugType := "node"
    frameworks :=
      [ { name := "jest"
          filePatterns := ["**/*.test.js", "**/*.test.ts", "**/*.spec.js",
            "**/*.spec.ts", "**/test/**", "**/tests/**", "jest.config.*",
            "package.json"]
          priority := 10
          debugConfig := jestDebugConfig
          testConfig := some jestTestConfig }
      , { name := "mocha"
          filePatterns := ["**/test/**", "**/tests/**", "*test.js", "*test.ts",
            "*spec.js", "*spec.ts", "mocha.opts"]
          priority := 5
          debugConfig := mochaDebugConfig
          testConfig := some mochaTestConfig } ]
    defaultConfig := javascriptDefaultConfig }

/-- `registerDefaultModules()`: the registry's module map after
construction, in insertion order python, go, javascript. -/
def defaultModules (asRel : String → String) : Modules :=
  [pythonModule asRel, golangModule, javascriptModule]

/-! ## Concrete fixtures used by witnesses and counterexamples -/

/-- A probe over a workspace in which every glob finds nothing. -/
def probeNone : Probe := fun _ => .notFound

/-- A probe over a workspace in which every glob finds a file. -/
def probeAll : Probe := fun _ => .found

/-- A probe that throws on the glob `"bad"` and otherwise finds nothing. -/
def probeErr : Probe := fun p => if p == "bad" then .error else .notFound

/-- A probe over a workspace containing (only) a `main.go` marker. -/
def probeMainGo : Probe := fun p => if p == "**/main.go" then .found else .notFound

/-- A probe whose workspace contains only values matched by pytest marker
globs, e.g. a `pytest.ini`. -/
def probePytest : Probe := fun p => if p == "pytest.ini" then .found else .notFound

/-- The same probe with `probe p = error` cases degraded to `notFound`:
the reference against which the try/catch in `matchesFramework` is
compared. -/
def degradeProbe (probe : Probe) : Probe := fun p =>
  match probe p with
  | .error => .notFound
  | r => r

/-- A minimal schema-valid debug config for fixture factories. -/
def trivialDebugConfig : LanguageDebugConfig :=
  { type := "demo", name := "demo", request := "launch" }

/-- Fixture framework with priority 1 (supplied FIRST in `demoModule`). -/
def fwLow : LanguageFramework :=
  { name := "low"
    filePatterns := ["low-marker"]
    priority := 1
    debugConfig := fun _ => trivialDebugConfig }

/-- Fixture framework with priority 2 (supplied SECOND in `demoModule`). -/
def fwHigh : LanguageFramework :=
  { name := "high"
    filePatterns := ["high-marker"]
    priority := 2
    debugConfig := fun _ => trivialDebugConfig }

/-- Fixture module registered under language `demo` whose frameworks are
supplied in ascending priority order `[fwLow, fwHigh]`. -/
def demoModule : LanguageModule :=
  { language := "demo"
    displayName := "Demo"
    fileExtensions := ["demo"]
    defaultDebugType := "demo"
    frameworks := [fwLow, fwHigh]
    defaultConfig := fun _ _ => trivialDebugConfig }

/-- A symbol in the fixture language `demo`. -/
def symDemo : SymbolInfo :=
  { name := "f", path := ["f"], kind := "function", language := "demo"
    filePath := "/w/src/f.demo", workspaceRoot := "/w" }

/-- A symbol in a language (`ruby`) with no registered module. -/
def symRuby : SymbolInfo :=
  { name := "f", path := ["f"], kind := "function", language := "ruby"
    filePath := "/w/f.rb", workspaceRoot := "/w" }

/-- The Go test symbol of the spec's scenario. -/
def symTestAddition : SymbolInfo :=
  { name := "TestAddition", path := ["TestAddition"], kind := "function"
    language := "go", filePath := "/workspace/math_test.go"
    workspaceRoot := "/workspace" }

/-- A plain Go symbol (no test prefix, not `main`). -/
def symGoPlain : SymbolInfo :=
  { name := "Helper", path := ["Helper"], kind := "function", language := "go"
    filePath := "/w/pkg/helper.go", workspaceRoot := "/w" }

/-! ## General lemmas about the embedding -/

theorem insertByPriority_perm (fw : LanguageFramework)
    (l : List LanguageFramework) : (insertByPriority fw l).Perm (fw :: l) := by
  induction l with
  | nil => exact List.Perm.refl _
  | cons g rest ih =>
    simp only [insertByPriority]
    by_cases h : g.priority > fw.priority
    · rw [if_pos h]
      exact (ih.cons g).trans (List.Perm.swap fw g rest)
    · rw [if_neg h]

theorem sortByPriorityDesc_perm (l : List LanguageFramework) :
    (sortByPriorityDesc l).Perm l := by
  induction l with
  | nil => exact List.Perm.refl _
  | cons fw rest ih =>
    exact (insertByPriority_perm fw (sortByPriorityDesc rest)).trans (ih.cons fw)

theorem mem_sortByPriorityDesc {fw : LanguageFramework}
    {l : List LanguageFramework} (h : fw ∈ sortByPriorityDesc l) : fw ∈ l :=
  (sortByPriorityDesc_perm l).mem_iff.mp h

theorem findMatchingFramework_eq_none (probe : Probe)
    (l : List LanguageFramework)
    (h : ∀ fw ∈ l, matchesFramework probe fw = false) :
    findMatchingFramework probe l = none := by
  induction l with
  | nil => rfl
  | cons fw rest ih =>
    simp only [findMatchingFramework]
    rw [h fw (List.mem_cons_self fw rest), if_neg (by simp)]
    exact ih fun g hg => h g (List.mem_cons_of_mem fw hg)

theorem matchesPatterns_probeNone (ps : List String) :
    matchesPatterns probeNone ps = false := by
  induction ps with
  | nil => rfl
  | cons p rest ih => simpa [matchesPatterns, probeNone] using ih

/-! ## Claim C1 -/

/-- Claim C1 is FALSE as stated: `generateDebugConfig` does fail for a
symbol whose language has no registered module, but `generateTestConfig`
does NOT surface that failure — its body never throws; on the default
registry and the unregistered language `ruby` it returns the recovered
fallback value `null` (here `Except.ok none`), indistinguishable from the
ordinary "no test config" outcome. -/
theorem C1_counterexample :
    getModule (defaultModules id) symRuby.language = none ∧
    generateTestConfig (defaultModules id) probeNone symRuby =
      Except.ok none :=
  ⟨rfl, rfl⟩

/-- Claim C1 (amended): for every symbol whose language key has no
registered module, `generateDebugConfig` fails with the
UnregisteredLanguage error, while `generateTestConfig` returns the absent
value (`null`) without surfacing any error. -/
theorem C1_unregistered_language (modules : Modules) (probe : Probe)
    (symbol : SymbolInfo) (h : getModule modules symbol.language = none) :
    generateDebugConfig modules probe symbol =
      Except.error ("No module registered for language: " ++ symbol.language) ∧
    generateTestConfig modules probe symbol = Except.ok none := by
  constructor
  · simp [generateDebugConfig, h]
  · simp [generateTestConfig, detectFramework, h]

/-- Witness for C1 at the concrete symbol `symRuby` on the default
registry. -/
theorem C1_witness :
    generateDebugConfig (defaultModules id) probeNone symRuby =
      Except.error ("No module registered for language: " ++ symRuby.language) ∧
    generateTestConfig (defaultModules id) probeNone symRuby =
      Except.ok none :=
  C1_unregistered_language (defaultModules id) probeNone symRuby rfl

/-! ## Claim C2 -/

/-- Claim C2: for a registered module holding two Framework rules that both
match the workspace, `detectFramework` returns the rule with the strictly
higher priority, whichever order the two rules were supplied in. -/
theorem C2_detect_highest_priority (A B : LanguageFramework) (probe : Probe)
    (modules : Modules) (symbol : SymbolInfo) (m : LanguageModule)
    (hm : getModule modules symbol.language = some m)
    (horder : m.frameworks = [A, B] ∨ m.frameworks = [B, A])
    (hA : matchesFramework probe A = true)
    (hB : matchesFramework probe B = true)
    (hpri : B.priority < A.priority) :
    detectFramework modules probe symbol = some A := by
  have hsort : sortByPriorityDesc m.frameworks = [A, B] := by
    rcases horder with h | h <;> rw [h] <;>
      simp only [sortByPriorityDesc, insertByPriority]
    · rw [if_neg (by omega)]
    · rw [if_pos (by omega)]
  simp only [detectFramework, hm]
  rw [hsort]
  simp [findMatchingFramework, hA]

/-- Witness for C2: the fixture module supplies its rules in ascending
priority order `[fwLow, fwHigh]`, every pattern matches, and detection
still returns `fwHigh`. -/
theorem C2_witness : detectFramework [demoModule] probeAll symDemo = some fwHigh :=
  C2_detect_highest_priority fwHigh fwLow probeAll [demoModule] symDemo
    demoModule rfl (Or.inr rfl) rfl rfl (by decide)

/-! ## Claim C3 -/

/-- Claim C3: for a symbol whose language has a registered module, if none
of the module's Framework rules match the workspace, `generateDebugConfig`
returns exactly `module.defaultConfig(symbol.filePath,
symbol.workspaceRoot)`, wrapped as a success (`Except.ok`), never as an
error. -/
theorem C3_default_fallback (modules : Modules) (probe : Probe)
    (symbol : SymbolInfo) (m : LanguageModule)
    (hm : getModule modules symbol.language = some m)
    (hnone : ∀ fw ∈ m.frameworks, matchesFramework probe fw = false) :
    generateDebugConfig modules probe symbol =
      Except.ok (m.defaultConfig symbol.filePath symbol.workspaceRoot) := by
  have hdetect : detectFramework modules probe symbol = none := by
    unfold detectFramework
    rw [hm]
    exact findMatchingFramework_eq_none probe _
      fun fw hfw => hnone fw (mem_sortByPriorityDesc hfw)
  simp [generateDebugConfig, hm, hdetect]

/-- Witness for C3: the Go module over a workspace in which no glob finds
anything. -/
theorem C3_witness :
    generateDebugConfig [golangModule] probeNone symGoPlain =
      Except.ok (golangModule.defaultConfig symGoPlain.filePath
        symGoPlain.workspaceRoot) :=
  C3_default_fallback [golangModule] probeNone symGoPlain golangModule rfl
    fun fw _ => matchesPatterns_probeNone fw.filePatterns

/-! ## Claim C7 -/

theorem matchesPatterns_degrade (probe : Probe) (ps : List String) :
    matchesPatterns probe ps = matchesPatterns (degradeProbe probe) ps := by
  induction ps with
  | nil => rfl
  | cons p rest ih =>
    simp only [matchesPatterns, degradeProbe]
    cases h : probe p <;> simp [h, ih]

theorem findMatchingFramework_degrade (probe : Probe)
    (l : List LanguageFramework) :
    findMatchingFramework probe l = findMatchingFramework (degradeProbe probe) l := by
  induction l with
  | nil => rfl
  | cons fw rest ih =>
    simp only [findMatchingFramework, matchesFramework,
      ← matchesPatterns_degrade, ih]

/-- Claim C7: a glob probe that throws is treated exactly as "this pattern
did not match": (1) the whole pattern scan computes the same answer as
with a probe whose errors are degraded to "not found"; (2) an erroring
pattern just falls through to the framework's remaining patterns; (3) the
error never changes (hence never aborts) the outcome of
`detectFramework`, which continues with the remaining lower-priority
frameworks. -/
theorem C7_probe_errors_swallowed :
    (∀ (probe : Probe) (ps : List String),
      matchesPatterns probe ps = matchesPatterns (degradeProbe probe) ps) ∧
    (∀ (probe : Probe) (p : String) (rest : List String),
      probe p = ProbeResult.error →
      matchesPatterns probe (p :: rest) = matchesPatterns probe rest) ∧
    (∀ (modules : Modules) (probe : Probe) (symbol : SymbolInfo),
      detectFramework modules probe symbol =
        detectFramework modules (degradeProbe probe) symbol) := by
  refine ⟨matchesPatterns_degrade, ?_, ?_⟩
  · intro probe p rest h
    simp [matchesPatterns, h]
  · intro modules probe symbol
    unfold detectFramework
    cases getModule modules symbol.language with
    | none => rfl
    | some m => exact findMatchingFramework_degrade probe _

/-- Witness for C7 (part 2) at a concrete erroring probe: the probe throws
on the pattern `bad`, and the scan continues with the remaining patterns
as if `bad` had not matched. -/
theorem C7_witness :
    matchesPatterns probeErr ["bad", "good"] =
      matchesPatterns probeErr ["good"] :=
  C7_probe_errors_swallowed.2.1 probeErr "bad" ["good"] rfl

/-! ## Claim C8 -/

/-- Claim C8: `generateTestConfig` returns the absent value (`null`,
embedded as `Except.ok none`) — not an error — both when the detected
Framework has no `testConfig` factory and when no Framework is detected at
all; and the Go module's `go-main` framework is a concrete framework with
a `debugConfig` but no `testConfig`. -/
theorem C8_testconfig_absent :
    (∀ (modules : Modules) (probe : Probe) (symbol : SymbolInfo)
      (fw : LanguageFramework),
      detectFramework modules probe symbol = some fw →
      fw.testConfig = none →
      generateTestConfig modules probe symbol = Except.ok none) ∧
    (∀ (modules : Modules) (probe : Probe) (symbol : SymbolInfo),
      detectFramework modules probe symbol = none →
      generateTestConfig modules probe symbol = Except.ok none) ∧
    (golangModule.frameworks.getLast? = some goMainFramework ∧
      goMainFramework.name = "go-main" ∧
      goMainFramework.debugConfig = generateGoDebugConfig ∧
      goMainFramework.testConfig = none) := by
  refine ⟨?_, ?_, rfl, rfl, rfl, rfl⟩
  · intro modules probe symbol fw hdet htc
    simp [generateTestConfig, hdet, htc]
  · intro modules probe symbol hdet
    simp [generateTestConfig, hdet]

/-- Witness for C8: on a workspace holding only a `main.go` marker, the Go
module detects `go-main` (which has no test factory) and
`generateTestConfig` returns the absent value. -/
theorem C8_witness :
    generateTestConfig [golangModule] probeMainGo symGoPlain =
      Except.ok none :=
  C8_testconfig_absent.1 [golangModule] probeMainGo symGoPlain
    goMainFramework rfl rfl

/-! ## Claim C9 -/

/-- Claim C9 is FALSE as stated: `module.frameworks.sort(...)` inside
`detectFramework` (and `getFrameworkInfo`) sorts the registered module's
own array IN PLACE.  For the fixture module whose frameworks were supplied
in ascending priority order `[1, 2]`, one call leaves the registered array
reordered to `[2, 1]` — the module's frameworks array is NOT left
unchanged. -/
theorem C9_counterexample :
    (demoModule.frameworks.map fun fw => fw.priority) = [1, 2] ∧
    ((detectFrameworkEffect demoModule).frameworks.map fun fw => fw.priority)
      = [2, 1] ∧
    (detectFrameworkEffect demoModule).frameworks ≠ demoModule.frameworks := by
  refine ⟨rfl, rfl, fun h => ?_⟩
  exact absurd (congrArg (List.map fun fw => fw.priority) h) (by decide)

theorem pairwise_insertByPriority (fw : LanguageFramework)
    (l : List LanguageFramework)
    (h : List.Pairwise (fun a b => b.priority ≤ a.priority) l) :
    List.Pairwise (fun a b => b.priority ≤ a.priority)
      (insertByPriority fw l) := by
  induction l with
  | nil => simp [insertByPriority]
  | cons g rest ih =>
    rw [List.pairwise_cons] at h
    obtain ⟨hg, hrest⟩ := h
    simp only [insertByPriority]
    by_cases hc : g.priority > fw.priority
    · rw [if_pos hc]
      rw [List.pairwise_cons]
      refine ⟨?_, ih hrest⟩
      intro x hx
      rcases List.mem_cons.mp ((insertByPriority_perm fw rest).mem_iff.mp hx)
        with rfl | hx
      · exact le_of_lt hc
      · exact hg x hx
    · rw [if_neg hc]
      push_neg at hc
      rw [List.pairwise_cons]
      refine ⟨?_, List.pairwise_cons.mpr ⟨hg, hrest⟩⟩
      intro x hx
      rcases List.mem_cons.mp hx with rfl | hx
      · exact hc
      · exact le_trans (hg x hx) hc

theorem pairwise_sortByPriorityDesc (l : List LanguageFramework) :
    List.Pairwise (fun a b => b.priority ≤ a.priority)
      (sortByPriorityDesc l) := by
  induction l with
  | nil => simp [sortByPriorityDesc]
  | cons fw rest ih => exact pairwise_insertByPriority fw _ ih

theorem sortByPriorityDesc_eq_of_pairwise :
    ∀ l : List LanguageFramework,
      List.Pairwise (fun a b => b.priority ≤ a.priority) l →
      sortByPriorityDesc l = l
  | [], _ => rfl
  | fw :: rest, h => by
    rw [List.pairwise_cons] at h
    obtain ⟨hfw, hrest⟩ := h
    simp only [sortByPriorityDesc]
    rw [sortByPriorityDesc_eq_of_pairwise rest hrest]
    cases rest with
    | nil => rfl
    | cons g t =>
      simp only [insertByPriority]
      rw [if_neg (not_lt.mpr (hfw g (List.mem_cons_self g t)))]

/-- Claim C9 (amended): the registry never adds or removes a registered
module's frameworks — after `detectFramework`/`getFrameworkInfo` the array
is a permutation of the registered one — but both operations sort that
array in place into descending priority order, so the relative order of
its elements can change; only a list already in descending priority order
is left unchanged. -/
theorem C9_frameworks_sorted_in_place (m : LanguageModule) :
    ((detectFrameworkEffect m).frameworks).Perm m.frameworks ∧
    List.Pairwise (fun a b => b.priority ≤ a.priority)
      (detectFrameworkEffect m).frameworks ∧
    (List.Pairwise (fun a b => b.priority ≤ a.priority) m.frameworks →
      detectFrameworkEffect m = m) := by
  refine ⟨sortByPriorityDesc_perm m.frameworks,
    pairwise_sortByPriorityDesc m.frameworks, fun hs => ?_⟩
  unfold detectFrameworkEffect
  rw [sortByPriorityDesc_eq_of_pairwise m.frameworks hs]

/-- Witness for C9: the Go module's frameworks are supplied already in
descending priority order (10 then 8), so the in-place sort leaves it
unchanged. -/
theorem C9_witness : detectFrameworkEffect golangModule = golangModule :=
  (C9_frameworks_sorted_in_place golangModule).2.2
    (List.Pairwise.cons
      (fun x hx => by
        rcases List.mem_singleton.mp hx with rfl
        decide)
      (List.pairwise_singleton _ _))

/-! ## Claim C4 -/

/-- Claim C4: for a Go symbol whose file name ends with `_test.go` and
whose simple name starts with `Test`, `Benchmark` or `Example`, the Go
config factory produces execution mode `test` and an argument list
containing `-test.run`, the anchored pattern `^<name>$` and the verbose
flag `-test.v`. -/
theorem C4_go_test_config (symbol : SymbolInfo)
    (hfile : jsEndsWith symbol.filePath "_test.go" = true)
    (hname : (jsStartsWith symbol.name "Test" ||
              jsStartsWith symbol.name "Benchmark" ||
              jsStartsWith symbol.name "Example") = true) :
    (generateGoDebugConfig symbol).mode = some "test" ∧
    ∃ l, (generateGoDebugConfig symbol).args = some l ∧
      "-test.run" ∈ l ∧ ("^" ++ symbol.name ++ "$") ∈ l ∧ "-test.v" ∈ l := by
  have ht : isGoTestFunction symbol = true := by
    simp only [isGoTestFunction, hfile, hname, Bool.and_self]
  refine ⟨?_, ["-test.run", "^" ++ symbol.name ++ "$", "-test.v"],
    ?_, ?_, ?_, ?_⟩ <;>
    simp [generateGoDebugConfig, ht]

/-- Witness for C4 at the spec's scenario symbol `TestAddition` in
`/workspace/math_test.go`. -/
theorem C4_witness :
    (generateGoDebugConfig symTestAddition).mode = some "test" ∧
    ∃ l, (generateGoDebugConfig symTestAddition).args = some l ∧
      "-test.run" ∈ l ∧ ("^" ++ symTestAddition.name ++ "$") ∈ l ∧
      "-test.v" ∈ l :=
  C4_go_test_config symTestAddition (by decide) (by decide)

/-! ## Claim C6 -/

/-- Claim C6 exposes a code bug: for a `filePath` with no separator at
all, `filePath.substring(0, filePath.lastIndexOf('/'))` clamps the `-1`
to `0` and yields `""`, so the guard `dirPath === filePath` — whose own
comment says it handles the no-separator case — never fires for a
nonempty path; the function returns `""` instead of the claimed
`"${workspaceFolder}"` (which it produces only for the empty path). -/
theorem C6_no_separator_bug :
    getFileDirectoryPath "main.go" "/workspace" = "" ∧
    getFileDirectoryPath "" "/workspace" = "${workspaceFolder}" :=
  ⟨rfl, rfl⟩

/-! ## Claim C5 -/

/-- Claim C5 is FALSE as stated: the Python default factory removes only
the FIRST occurrence of `workspaceRoot` by string replacement, so with
`workspaceRoot = "/a"` and `filePath = "/a/a/main.py"` (which lies under
the root) the generated `program` is `${workspaceFolder}/a/main.py`,
which still CONTAINS the literal workspaceRoot `"/a"` as a substring. -/
theorem C5_counterexample :
    jsStartsWith "/a/a/main.py" ("/a" ++ "/") = true ∧
    (pythonDefaultConfig "/a/a/main.py" "/a").program =
      some "${workspaceFolder}/a/main.py" ∧
    jsIncludes "${workspaceFolder}/a/main.py" "/a" = true :=
  ⟨rfl, rfl, rfl⟩

theorem lastIndexOfChar_lt_length (c : Char) :
    ∀ (l : List Char) (i : Nat), lastIndexOfChar c l = some i → i < l.length
  | [], i, h => by simp [lastIndexOfChar] at h
  | x :: xs, i, h => by
    simp only [lastIndexOfChar] at h
    cases hx : lastIndexOfChar c xs with
    | some j =>
      rw [hx] at h
      cases h
      exact Nat.succ_lt_succ (lastIndexOfChar_lt_length c xs j hx)
    | none =>
      rw [hx] at h
      by_cases he : x = c
      · rw [if_pos he] at h
        cases h
        exact Nat.succ_pos _
      · rw [if_neg he] at h
        cases h

theorem substringToLast_ne (c : Char) (s : String) (hs : s ≠ "") :
    substringToLast c s ≠ s := by
  unfold substringToLast
  cases h : lastIndexOfChar c s.data with
  | none => exact fun he => hs he.symm
  | some i =>
    intro he
    have hlen : (s.data.take i).length = s.data.length :=
      congrArg (fun t : String => t.data.length) he
    have hi := lastIndexOfChar_lt_length c s.data i h
    rw [List.length_take] at hlen
    omega

theorem isPrefixOf_nil_eq (l : List Char) (h : l.isPrefixOf [] = true) :
    l = [] := by
  cases l with
  | nil => rfl
  | cons a as => simp [List.isPrefixOf] at h

/-- Claim C5 (amended): all three generators express the field via the
`${workspaceFolder}` template token — the Python and JavaScript default
factories always emit the token followed by `/` and the computed relative
remainder, and for any `filePath` under a nonempty `workspaceRoot` the Go
directory resolution emits the token alone or the token plus the relative
segments; but because only the leading occurrence of `workspaceRoot` is
replaced, the remainder can still repeat the `workspaceRoot` text, so the
field may still contain it as a substring. -/
theorem C5_template_token (filePath workspaceRoot : String) :
    (∃ rel, (pythonDefaultConfig filePath workspaceRoot).program =
        some ("${workspaceFolder}/" ++ rel)) ∧
    (∃ rel, (javascriptDefaultConfig filePath workspaceRoot).program =
        some ("${workspaceFolder}/" ++ rel)) ∧
    (workspaceRoot ≠ "" → jsStartsWith filePath workspaceRoot = true →
      getFileDirectoryPath filePath workspaceRoot = "${workspaceFolder}" ∨
      ∃ rel, getFileDirectoryPath filePath workspaceRoot =
        "${workspaceFolder}/" ++ rel) := by
  refine ⟨⟨_, rfl⟩, ⟨_, rfl⟩, fun hroot hpre => ?_⟩
  have hfp : filePath ≠ "" := by
    intro h
    subst h
    apply hroot
    apply String.ext
    exact isPrefixOf_nil_eq workspaceRoot.data hpre
  unfold getFileDirectoryPath
  rw [if_neg (by
    simp only [beq_iff_eq]
    exact substringToLast_ne '/' filePath hfp)]
  rw [if_pos (by
    simp only [Bool.and_eq_true, bne_iff_ne]
    exact ⟨hroot, hpre⟩)]
  dsimp only
  split
  · exact Or.inr ⟨_, rfl⟩
  · exact Or.inl rfl

/-- Witness for C5 at a file under the workspace root, with the
under-root hypotheses of the third conjunct discharged concretely. -/
theorem C5_witness :
    (∃ rel, (pythonDefaultConfig "/w/app/main.py" "/w").program =
        some ("${workspaceFolder}/" ++ rel)) ∧
    (getFileDirectoryPath "/w/app/main.py" "/w" = "${workspaceFolder}" ∨
      ∃ rel, getFileDirectoryPath "/w/app/main.py" "/w" =
        "${workspaceFolder}/" ++ rel) :=
  ⟨(C5_template_token "/w/app/main.py" "/w").1,
    (C5_template_token "/w/app/main.py" "/w").2.2 (by decide) rfl⟩

/-! ## Claim C10 -/

theorem isPrefixOf_takeWhile (p : Char → Bool) :
    ∀ (l xs : List Char), l.all p = true → l.isPrefixOf xs = true →
      l.isPrefixOf (xs.takeWhile p) = true
  | [], _, _, _ => by simp [List.isPrefixOf]
  | a :: l, [], _, h => by simp [List.isPrefixOf] at h
  | a :: l, b :: xs, hall, h => by
    rw [List.isPrefixOf_cons₂, Bool.and_eq_true] at h
    obtain ⟨hab, hl⟩ := h
    rw [List.all_cons, Bool.and_eq_true] at hall
    obtain ⟨ha, hall⟩ := hall
    have hpb : p b = true := by rwa [eq_of_beq hab] at ha
    rw [List.takeWhile_cons, if_pos hpb, List.isPrefixOf_cons₂,
      Bool.and_eq_true]
    exact ⟨hab, isPrefixOf_takeWhile p l xs hall hl⟩

theorem isPrefixOf_of_takeWhile (p : Char → Bool) :
    ∀ (l xs : List Char), l.isPrefixOf (xs.takeWhile p) = true →
      l.isPrefixOf xs = true
  | [], _, _ => by simp [List.isPrefixOf]
  | a :: l, [], h => by simp [List.isPrefixOf] at h
  | a :: l, b :: xs, h => by
    rw [List.takeWhile_cons] at h
    by_cases hpb : p b = true
    · rw [if_pos hpb, List.isPrefixOf_cons₂, Bool.and_eq_true] at h
      rw [List.isPrefixOf_cons₂, Bool.and_eq_true]
      exact ⟨h.1, isPrefixOf_of_takeWhile p l xs h.2⟩
    · rw [if_neg hpb] at h
      simp [List.isPrefixOf] at h

theorem jsEndsWith_jsBasename (s pat : String)
    (hsep : pat.data.all (fun c => !isSep c) = true)
    (h : jsEndsWith s pat = true) :
    jsEndsWith (jsBasename s) pat = true := by
  unfold jsEndsWith jsBasename List.isSuffixOf at *
  show pat.data.reverse.isPrefixOf
    ((s.data.reverse.takeWhile fun c => !isSep c).reverse).reverse = true
  rw [List.reverse_reverse]
  exact isPrefixOf_takeWhile _ _ _ (by rwa [List.all_reverse]) h

theorem jsEndsWith_of_jsBasename (s pat : String)
    (h : jsEndsWith (jsBasename s) pat = true) :
    jsEndsWith s pat = true := by
  unfold jsEndsWith jsBasename List.isSuffixOf at *
  rw [show ((⟨(s.data.reverse.takeWhile fun c => !isSep c).reverse⟩ :
      String)).data.reverse = s.data.reverse.takeWhile fun c => !isSep c from
    List.reverse_reverse _] at h
  exact isPrefixOf_of_takeWhile _ _ _ h

/-- Claim C10: `golangModule.defaultConfig` classifies purely by file
name — basename exactly `main.go` gives mode `debug` with program
`${file}`; a path ending in `_test.go` gives mode `test` with the
resolved directory and args `["-test.v"]`; anything else gives mode
`auto` with the resolved directory; and every branch has type `go` and
request `launch`. -/
theorem C10_go_default_classification (filePath workspaceRoot : String) :
    (jsBasename filePath = "main.go" →
      (golangDefaultConfig filePath workspaceRoot).type = "go" ∧
      (golangDefaultConfig filePath workspaceRoot).request = "launch" ∧
      (golangDefaultConfig filePath workspaceRoot).mode = some "debug" ∧
      (golangDefaultConfig filePath workspaceRoot).program = some "${file}") ∧
    (jsEndsWith filePath "_test.go" = true →
      (golangDefaultConfig filePath workspaceRoot).type = "go" ∧
      (golangDefaultConfig filePath workspaceRoot).request = "launch" ∧
      (golangDefaultConfig filePath workspaceRoot).mode = some "test" ∧
      (golangDefaultConfig filePath workspaceRoot).program =
        some (getFileDirectoryPath filePath workspaceRoot) ∧
      (golangDefaultConfig filePath workspaceRoot).args = some ["-test.v"]) ∧
    (jsBasename filePath ≠ "main.go" →
      jsEndsWith filePath "_test.go" = false →
      (golangDefaultConfig filePath workspaceRoot).type = "go" ∧
      (golangDefaultConfig filePath workspaceRoot).request = "launch" ∧
      (golangDefaultConfig filePath workspaceRoot).mode = some "auto" ∧
      (golangDefaultConfig filePath workspaceRoot).program =
        some (getFileDirectoryPath filePath workspaceRoot)) := by
  refine ⟨fun hb => ?_, fun hend => ?_, fun hmain hend => ?_⟩
  · simp [golangDefaultConfig, hb]
  · have hbase : jsEndsWith (jsBasename filePath) "_test.go" = true :=
      jsEndsWith_jsBasename filePath "_test.go" (by decide) hend
    have hne : jsBasename filePath ≠ "main.go" := by
      intro he
      rw [he] at hbase
      exact absurd hbase (by decide)
    simp [golangDefaultConfig, hne, hbase]
  · have hbase : jsEndsWith (jsBasename filePath) "_test.go" = false := by
      cases hb : jsEndsWith (jsBasename filePath) "_test.go" with
      | false => rfl
      | true =>
        exact absurd (jsEndsWith_of_jsBasename filePath "_test.go" hb)
          (by simp [hend])
    simp [golangDefaultConfig, hmain, hbase]

/-- Witness for C10: a `main.go`, a `_test.go` file and a plain file,
each under `/w`. -/
theorem C10_witness :
    ((golangDefaultConfig "/w/main.go" "/w").type = "go" ∧
      (golangDefaultConfig "/w/main.go" "/w").request = "launch" ∧
      (golangDefaultConfig "/w/main.go" "/w").mode = some "debug" ∧
      (golangDefaultConfig "/w/main.go" "/w").program = some "${file}") ∧
    ((golangDefaultConfig "/w/pkg/math_test.go" "/w").type = "go" ∧
      (golangDefaultConfig "/w/pkg/math_test.go" "/w").request = "launch" ∧
      (golangDefaultConfig "/w/pkg/math_test.go" "/w").mode = some "test" ∧
      (golangDefaultConfig "/w/pkg/math_test.go" "/w").program =
        some (getFileDirectoryPath "/w/pkg/math_test.go" "/w") ∧
      (golangDefaultConfig "/w/pkg/math_test.go" "/w").args =
        some ["-test.v"]) ∧
    ((golangDefaultConfig "/w/pkg/helper.go" "/w").type = "go" ∧
      (golangDefaultConfig "/w/pkg/helper.go" "/w").request = "launch" ∧
      (golangDefaultConfig "/w/pkg/helper.go" "/w").mode = some "auto" ∧
      (golangDefaultConfig "/w/pkg/helper.go" "/w").program =
        some (getFileDirectoryPath "/w/pkg/helper.go" "/w")) :=
  ⟨(C10_go_default_classification "/w/main.go" "/w").1 (by decide),
    (C10_go_default_classification "/w/pkg/math_test.go" "/w").2.1 (by decide),
    (C10_go_default_classification "/w/pkg/helper.go" "/w").2.2
      (by decide) (by decide)⟩

end TinglyDebug
